import Mathlib

/-
Verification of the contact_tracker repository against its natural-language
specification.

Shallow embedding notes, used throughout this file:

* Python floats that exist only to be tested with `math.isnan` and compared
  are modelled as `Option ℚ`: `none` models NaN.  Every Python comparison
  involving NaN is False, which the embedding realises by requiring the
  compared values to be `some` before comparing (`passGate` below).
* ROS timestamps (`header.stamp`, `rospy Time`) support subtraction and
  ordering; they are modelled as ℚ.
* `filterpy` (KalmanFilter predict/update, Q_discrete_white_noise,
  Q_continuous_white_noise, IMMEstimator) is an external library, not part of
  this repository.  Where the trackers call into it, the embedding takes the
  corresponding state transformers as explicit function parameters, so the
  theorems hold for every possible behaviour of the library.  The IMM
  mode-probability cycle, which no source file of this repository implements,
  is modelled from the specification (see `immMuUpdate`).
-/

namespace ContactTracker

/-- A possibly-NaN Python float: `none` models NaN / an absent channel. -/
abbrev NVal := Option ℚ

/-- The `detect_info` dictionary built at the top of both tracker callbacks
(`tracker_debug.py` lines 197-227, `tracker.py` lines 151-195).  The
construction there initialises each channel to NaN and overwrites it with the
message value exactly when that value is not NaN, which is the identity on
each channel; so the dictionary is modelled directly.  Only the fields the
tracking logic reads are carried: `pos_covar` is read at flat indices 0, 6
and 7, and `twist_covar` is carried (index 0 as representative) to express
that it is never read. -/
structure DetectInfo where
  stamp : ℚ
  pos_covar0 : ℚ
  pos_covar6 : ℚ
  pos_covar7 : ℚ
  twist_covar0 : ℚ
  x_pos : NVal
  y_pos : NVal
  z_pos : NVal
  x_vel : NVal
  y_vel : NVal
  z_vel : NVal
deriving DecidableEq

/-- The slice of a `filterpy.KalmanFilter` object that the tracker nodes read
directly: `kf.x[0]`, `kf.x[1]`, `kf.R[0][0]`, `kf.R[1][1]` (the gating test in
`check_all_contacts`) and `kf.dim_z` (`tracker.py` line 267).  All other
filter state lives inside the external library and is acted on only through
the abstract `predict` / `update` / `setQ` parameters of the callbacks. -/
structure KFState where
  x0 : ℚ
  x1 : ℚ
  R00 : ℚ
  R11 : ℚ
  dim_z : ℕ
deriving DecidableEq

/-- A contact object as the `tracker_debug.py` node accesses it: attributes
`kf`, `id`, `first_measured`, `last_measured`, `dt`, `info`, `last_xpos`,
`last_ypos`, `last_xvel`, `last_yvel`, `times`.  (The histories `xs`, `zs`,
`ps` append the library-internal values `kf.x`, `kf.z`, `kf.P`, which are not
observable in this embedding and are read by no claim; only `times`, whose
entries the callback computes itself, is carried.) -/
structure NodeContact where
  kf : KFState
  id : ℚ
  first_measured : ℚ
  last_measured : ℚ
  dt : ℚ
  info : DetectInfo
  last_xpos : ℚ
  last_ypos : ℚ
  last_xvel : ℚ
  last_yvel : ℚ
  times : List ℚ
deriving DecidableEq

/-- `self.all_contacts` of `tracker_debug.py`: a Python dict keyed by the
creation timestamp.  Modelled as an insertion-ordered association list, which
is exactly the iteration order of a Python dict. -/
abbrev Registry := List (ℚ × NodeContact)

/-- Dictionary lookup `self.all_contacts[k]` (also `k in self.all_contacts`
via `isSome`). -/
def lookupReg (reg : Registry) (k : ℚ) : Option NodeContact :=
  match reg with
  | [] => none
  | (k0, c) :: rest => if k0 = k then some c else lookupReg rest k

/-- Dictionary assignment `self.all_contacts[k] = c`: overwrites in place if
the key exists, otherwise appends (Python dicts keep insertion order). -/
def setReg (reg : Registry) (k : ℚ) (c : NodeContact) : Registry :=
  match reg with
  | [] => [(k, c)]
  | (k0, c0) :: rest => if k0 = k then (k0, c) :: rest else (k0, c0) :: setReg rest k c

/-- The per-contact gating test inside `KalmanTracker.check_all_contacts`
(`tracker_debug.py` line 164):

  `(detect_info['x_pos'] - c.kf.x[0]) < ((detect_info['pos_covar'][0] + c.kf.R[0][0]) * 2)`
  `and (detect_info['y_pos'] - c.kf.x[1]) < ((detect_info['pos_covar'][7] + c.kf.R[1][1]) * 2)`

Note the differences are signed: the source takes no absolute value.  A NaN
position (`none`) makes the Python comparison False, hence the `match`. -/
def passGate (info : DetectInfo) (c : NodeContact) : Bool :=
  match info.x_pos, info.y_pos with
  | some x, some y =>
      decide (x - c.kf.x0 < (info.pos_covar0 + c.kf.R00) * 2) &&
      decide (y - c.kf.x1 < (info.pos_covar7 + c.kf.R11) * 2)
  | _, _ => false

/-- `KalmanTracker.check_all_contacts` (`tracker_debug.py` lines 154-169):
iterate over the registry in insertion order, return `c.id` of the first
contact passing the gate, else return the fresh stamp. -/
def check_all_contacts (reg : Registry) (info : DetectInfo) (new_stamp : ℚ) : ℚ :=
  match reg with
  | [] => new_stamp
  | (_, c) :: rest =>
      if passGate info c then c.id else check_all_contacts rest info new_stamp

/-- The association gate as the specification words it (spec §4.4 / claim C1):
"compute the absolute difference between the detection's position and the
contact's predicted position on each axis independently; accept ... both axis
differences ... less than twice the sum of the detection's reported position
variance and the contact's corresponding innovation-covariance diagonal term"
(the diagonal terms read by the source are `kf.R[0][0]` and `kf.R[1][1]`).
This definition follows the spec's words, for comparison with `passGate`. -/
def specAbsGate (info : DetectInfo) (c : NodeContact) : Bool :=
  match info.x_pos, info.y_pos with
  | some x, some y =>
      decide (|x - c.kf.x0| < 2 * (info.pos_covar0 + c.kf.R00)) &&
      decide (|y - c.kf.x1| < 2 * (info.pos_covar7 + c.kf.R11))
  | _, _ => false

/-- The association step as claim C1 words it: first contact passing the
absolute-difference gate, else the fresh id. -/
def specAbsAssociate (reg : Registry) (info : DetectInfo) (fresh : ℚ) : ℚ :=
  match reg.find? (fun e => specAbsGate info e.2) with
  | some e => e.2.id
  | none => fresh

/-- The amended gate: identical to the spec's wording except that the
differences are signed (detection minus prediction, no absolute value), as
the source computes them. -/
def specSignedGate (info : DetectInfo) (c : NodeContact) : Bool :=
  match info.x_pos, info.y_pos with
  | some x, some y =>
      decide (x - c.kf.x0 < 2 * (info.pos_covar0 + c.kf.R00)) &&
      decide (y - c.kf.x1 < 2 * (info.pos_covar7 + c.kf.R11))
  | _, _ => false

/-- The amended association contract: first contact (in registry insertion
order) passing the signed gate, else the fresh id. -/
def specSignedAssociate (reg : Registry) (info : DetectInfo) (fresh : ℚ) : ℚ :=
  match reg.find? (fun e => specSignedGate info e.2) with
  | some e => e.2.id
  | none => fresh

/-- A detection at the origin with unit position variance and no velocity,
used as the stored `info` of the C1 counterexample contact. -/
def cexInfo : DetectInfo :=
  { stamp := 0, pos_covar0 := 1, pos_covar6 := 1, pos_covar7 := 1
    twist_covar0 := 1, x_pos := some 0, y_pos := some 0, z_pos := none
    x_vel := none, y_vel := none, z_vel := none }

/-- A concrete contact for the C1 counterexample: predicted position
(100, 100), measurement-noise diagonal 0, id 5. -/
def cexContact : NodeContact :=
  { kf := { x0 := 100, x1 := 100, R00 := 0, R11 := 0, dim_z := 4 }
    id := 5
    first_measured := 0
    last_measured := 0
    dt := 1
    info := cexInfo
    last_xpos := 0
    last_ypos := 0
    last_xvel := 0
    last_yvel := 0
    times := [] }

/-- A detection at the origin, position variance 1, used against
`cexContact`: its absolute distance to the contact is 100 on each axis, far
beyond the gate width 2·(1+0) = 2, yet the signed differences are −100. -/
def cexDetect : DetectInfo :=
  { stamp := 77, pos_covar0 := 1, pos_covar6 := 1, pos_covar7 := 1
    twist_covar0 := 1, x_pos := some 0, y_pos := some 0, z_pos := none
    x_vel := none, y_vel := none, z_vel := none }

/-- The pair-consistency check on the position channels
(`tracker_debug.py` line 231, `tracker.py` line 199): exactly one of
`x_pos` / `y_pos` is NaN. -/
def badPosPair (info : DetectInfo) : Bool :=
  (info.x_pos.isSome && info.y_pos.isNone) || (info.x_pos.isNone && info.y_pos.isSome)

/-- The pair-consistency check on the velocity channels
(`tracker_debug.py` line 234, `tracker.py` line 202): exactly one of
`x_vel` / `y_vel` is NaN. -/
def badVelPair (info : DetectInfo) : Bool :=
  (info.x_vel.isSome && info.y_vel.isNone) || (info.x_vel.isNone && info.y_vel.isSome)

/-- How a tracker callback can abort with a Python exception. -/
inductive CbErr where
  | typeError
  | attributeError
deriving DecidableEq

/-- The external collaborators a callback invokes, passed explicitly so the
theorems hold for every behaviour of the `filterpy` library and every
configured parameter:
`qhat` / `variance` come from the dynamic-reconfigure server;
`setQ dt var` models `c.kf.Q = Q_discrete_white_noise(dim=4, dt=dt, var=var)`;
`predictKF` models `c.kf.predict()`;
`updateKF z` models `c.kf.update(z)` with the 2- or 4-entry measurement
tuple `z` (entries may be NaN). -/
structure CbParams where
  qhat : ℚ
  variance : ℚ
  setQ : ℚ → ℚ → KFState → KFState
  predictKF : KFState → KFState
  updateKF : List NVal → KFState → KFState

/-- The contact id chosen by `tracker_debug.py` (lines 242-248): the header
stamp when the registry is empty, otherwise `check_all_contacts`. -/
def debugContactId (reg : Registry) (info : DetectInfo) : ℚ :=
  if reg.isEmpty then info.stamp else check_all_contacts reg info info.stamp

/-- The measurement tuple handed to `c.kf.update` by `tracker_debug.py`
(lines 314-319): always four entries, substituting the contact's last known
values for whichever channel the detection lacks. -/
def debugMeas (info : DetectInfo) (c : NodeContact) : List NVal :=
  if info.x_pos.isNone then
    [some c.last_xpos, some c.last_ypos, c.info.x_vel, c.info.y_vel]
  else if info.x_vel.isNone then
    [c.info.x_pos, c.info.y_pos, some c.last_xvel, some c.last_yvel]
  else
    [c.info.x_pos, c.info.y_pos, c.info.x_vel, c.info.y_vel]

/-- `KalmanTracker.callback` of `tracker_debug.py` (lines 185-334), embedded
as a transformer of the registry returning also whether a Python exception
escaped.  Step by step:

* lines 197-227 build `detect_info`; the NaN-guarded copying is the identity
  on each channel, so the input is taken to be the `DetectInfo` directly;
* lines 231-236: a detection with exactly one of a coordinate pair NaN
  returns early, normally, with no registry mutation;
* lines 242-248: `contact_id` is the header stamp or the association result;
* lines 257-287 (create): each of the three construction branches calls
  `Contact(detect_info, kf, self.variance, data.header.stamp)` — four
  positional arguments against `Contact.__init__(self, detect_info,
  all_filters, timestamp)`, which accepts three — so Python raises
  `TypeError` before any registry write (`typeError` here).  When position
  and velocity are both absent no branch runs, `None` is stored under the
  stamp, and the subsequent `c.kf.predict()` on `None` raises
  `AttributeError`.  (The `None` registry entry itself is not representable
  in `Registry` and is read by no claim; the error result carries the
  pre-call registry.)
* lines 289-307 (update): refresh `last_measured`, `epoch`, `dt`, `Q`
  (library call), `info`, and the last-known channel values;
* lines 310-325: predict, update with `debugMeas`, append bookkeeping.
* lines 327-334: the staleness sweep over `max_stale_contact_time` is
  commented out in the source, so no removal ever happens here. -/
def callbackDebug (p : CbParams) (reg : Registry) (info : DetectInfo) :
    Option CbErr × Registry :=
  if badPosPair info then (none, reg)
  else if badVelPair info then (none, reg)
  else
    let contact_id := debugContactId reg info
    match lookupReg reg contact_id with
    | none =>
        if info.x_pos.isSome || info.x_vel.isSome then (some .typeError, reg)
        else (some .attributeError, reg)
    | some c0 =>
        let last_measured := info.stamp
        let epoch := last_measured - c0.first_measured
        let c1 : NodeContact :=
          { c0 with
            last_measured := last_measured
            dt := epoch
            kf := p.setQ (epoch * p.qhat) p.variance c0.kf
            info := info
            last_xpos := if info.x_pos.isSome then info.x_pos.getD 0 else c0.last_xpos
            last_ypos := if info.x_pos.isSome then info.y_pos.getD 0 else c0.last_ypos
            last_xvel := if info.x_vel.isSome then info.x_vel.getD 0 else c0.last_xvel
            last_yvel := if info.x_vel.isSome then info.y_vel.getD 0 else c0.last_yvel }
        let reg1 := setReg reg contact_id c1
        let kf2 := p.predictKF c1.kf
        let kf3 := p.updateKF (debugMeas info c1) kf2
        let c3 : NodeContact := { c1 with kf := kf3, times := c1.times ++ [epoch] }
        (none, setReg reg1 contact_id c3)

/-- The module-level `DEBUG` flag of `tracker.py` (line 28). -/
def DEBUG : Bool := true

/-- Contact ids in `tracker.py`: the literal `1` under `DEBUG`, otherwise the
position pair `(x_pos, y_pos)` (lines 206-209).  (With NaN components the
Python tuple key would never compare equal to a later one; that arm is dead
under the shipped `DEBUG = True` and the claims exercise only the live arm.) -/
inductive TId where
  | one
  | posKey (x y : NVal)
deriving DecidableEq

/-- The contact id chosen by `tracker.py` lines 206-209. -/
def trackerContactId (info : DetectInfo) : TId :=
  if DEBUG then TId.one else TId.posKey info.x_pos info.y_pos

/-- A contact object as the `tracker.py` node accesses it (attributes
`kf`, `first_accessed`, `last_accessed`, `dt`, `info`, `times`; the `xs` /
`zs` histories append library-internal values and are read by no claim). -/
structure NodeContactT where
  kf : KFState
  first_accessed : ℚ
  last_accessed : ℚ
  dt : ℚ
  info : DetectInfo
  times : List ℚ
deriving DecidableEq

/-- `self.all_contacts` of `tracker.py`, keyed by `TId`. -/
abbrev RegistryT := List (TId × NodeContactT)

/-- Dictionary lookup in the `tracker.py` registry. -/
def lookupRegT (reg : RegistryT) (k : TId) : Option NodeContactT :=
  match reg with
  | [] => none
  | (k0, c) :: rest => if k0 = k then some c else lookupRegT rest k

/-- Dictionary assignment in the `tracker.py` registry. -/
def setRegT (reg : RegistryT) (k : TId) (c : NodeContactT) : RegistryT :=
  match reg with
  | [] => [(k, c)]
  | (k0, c0) :: rest => if k0 = k then (k0, c) :: rest else (k0, c0) :: setRegT rest k c

/-- `KalmanTracker.callback` of `tracker.py` (lines 138-281), embedded like
`callbackDebug`.  Differences from the debug node: the contact id comes from
`trackerContactId`; the update branch advances `last_accessed` from the wall
clock (`time.time()`, the explicit `now` parameter) and sets
`Q_discrete_white_noise(dim=4, dt=epoch*qhat, var=0.04**2)`; the measurement
tuple is four entries when `kf.dim_z == 4`, else the two position entries
(lines 267-270); the create branch calls `Contact(detect_info, kf,
self.variance, start_time, contact_id)` — five positional arguments against
the three accepted — raising `TypeError`; the staleness sweep (lines 278-281)
is commented out in the source. -/
def callbackTracker (p : CbParams) (now : ℚ) (reg : RegistryT) (info : DetectInfo) :
    Option CbErr × RegistryT :=
  if badPosPair info then (none, reg)
  else if badVelPair info then (none, reg)
  else
    let contact_id := trackerContactId info
    match lookupRegT reg contact_id with
    | none =>
        if info.x_pos.isSome || info.x_vel.isSome then (some .typeError, reg)
        else (some .attributeError, reg)
    | some c0 =>
        let epoch := now - c0.first_accessed
        let c1 : NodeContactT :=
          { c0 with
            last_accessed := now
            dt := epoch
            kf := p.setQ (epoch * p.qhat) ((4 / 100) ^ 2) c0.kf
            info := info }
        let reg1 := setRegT reg contact_id c1
        let kf2 := p.predictKF c1.kf
        let meas : List NVal :=
          if c1.kf.dim_z = 4 then
            [c1.info.x_pos, c1.info.y_pos, c1.info.x_vel, c1.info.y_vel]
          else
            [c1.info.x_pos, c1.info.y_pos]
        let kf3 := p.updateKF meas kf2
        let c3 : NodeContactT := { c1 with kf := kf3, times := c1.times ++ [epoch] }
        (none, setRegT reg1 contact_id c3)

/-- Concrete library/configuration parameters (identity transformers) used to
evaluate the callbacks on concrete inputs in closed theorems. -/
def idParams : CbParams :=
  { qhat := 1, variance := 1
    setQ := fun _ _ kf => kf
    predictKF := fun kf => kf
    updateKF := fun _ kf => kf }

/-- A half-position detection: `x_pos` = 3 while `y_pos` is NaN. -/
def w3info : DetectInfo :=
  { stamp := 0, pos_covar0 := 1, pos_covar6 := 1, pos_covar7 := 1
    twist_covar0 := 1, x_pos := some 3, y_pos := none, z_pos := none
    x_vel := none, y_vel := none, z_vel := none }

/-- Parameter list of `Contact.__init__` (`contact.py` line 27), `self`
excluded. -/
def contactInitParams : List String := ["detect_info", "all_filters", "timestamp"]

/-- The methods the `Contact` class defines (`contact.py`). -/
def contactMethods : List String := ["__init__", "set_Q", "init_filters", "set_Z"]

/-- Positional arguments of the `Contact(...)` calls in `tracker_debug.py`
(lines 265, 271, 277). -/
def debugContactCallArgs : List String :=
  ["detect_info", "kf", "self.variance", "data.header.stamp"]

/-- Positional arguments of the `Contact(...)` calls in `tracker.py`
(lines 227, 233, 239). -/
def trackerContactCallArgs : List String :=
  ["detect_info", "kf", "self.variance", "start_time", "contact_id"]

/-- Initializer methods the tracker nodes call on the freshly constructed
contact (`tracker_debug.py` lines 266, 272, 278; `tracker.py` lines 228,
234, 240). -/
def contactInitMethodsCalled : List String :=
  ["init_kf_with_position_only", "init_kf_with_velocity_only",
   "init_kf_with_position_and_velocity"]

/-- A fully populated detection (position and velocity both present). -/
def w9info : DetectInfo :=
  { stamp := 4, pos_covar0 := 1, pos_covar6 := 1, pos_covar7 := 1
    twist_covar0 := 1, x_pos := some 10, y_pos := some 20, z_pos := none
    x_vel := some 1, y_vel := some 2, z_vel := none }

/-- A contact last measured at time 0, predicted far away at (−1000, −1000)
so that no oncoming detection near the origin passes its gate.  Stored under
key 0 with id 0. -/
def staleContact : NodeContact :=
  { kf := { x0 := -1000, x1 := -1000, R00 := 0, R11 := 0, dim_z := 4 }
    id := 0
    first_measured := 0
    last_measured := 0
    dt := 1
    info := cexInfo
    last_xpos := 0
    last_ypos := 0
    last_xvel := 0
    last_yvel := 0
    times := [] }

/-- A contact near the origin, created at time 990, stored under key 5 with
matching id 5; the C2 detection associates with it. -/
def freshContact : NodeContact :=
  { kf := { x0 := 0, x1 := 0, R00 := 0, R11 := 0, dim_z := 4 }
    id := 5
    first_measured := 990
    last_measured := 990
    dt := 1
    info := cexInfo
    last_xpos := 0
    last_ypos := 0
    last_xvel := 0
    last_yvel := 0
    times := [] }

/-- The registry for the C2 run: the stale contact (insertion order first)
and the fresh one. -/
def c2reg : Registry := [(0, staleContact), (5, freshContact)]

/-- A validated position-only detection at the origin arriving at time 1000,
990 time units after `staleContact` was last measured. -/
def c2detect : DetectInfo :=
  { stamp := 1000, pos_covar0 := 1, pos_covar6 := 1, pos_covar7 := 1
    twist_covar0 := 1, x_pos := some 0, y_pos := some 0, z_pos := none
    x_vel := none, y_vel := none, z_vel := none }

/-- First far-apart detection for the C8 counterexample: position (0, 0) at
stamp 0. -/
def c8d1 : DetectInfo :=
  { stamp := 0, pos_covar0 := 1, pos_covar6 := 1, pos_covar7 := 1
    twist_covar0 := 1, x_pos := some 0, y_pos := some 0, z_pos := none
    x_vel := none, y_vel := none, z_vel := none }

/-- Second far-apart detection for the C8 counterexample: position
(1000, 1000) at stamp 1. -/
def c8d2 : DetectInfo :=
  { stamp := 1, pos_covar0 := 1, pos_covar6 := 1, pos_covar7 := 1
    twist_covar0 := 1, x_pos := some 1000, y_pos := some 1000, z_pos := none
    x_vel := none, y_vel := none, z_vel := none }

/-- The state-transition matrix assigned by `Contact.init_filters` when the
detection has position but no velocity (`contact.py` lines 129-135): the two
acceleration rows are identically zero. -/
def F_posOnly (dt : ℚ) : Fin 6 → Fin 6 → ℚ :=
  ![![1, 0, dt, 0, 1 / 2 * dt ^ 2, 0],
    ![0, 1, 0, dt, 0, 1 / 2 * dt ^ 2],
    ![0, 0, 1, 0, dt, 0],
    ![0, 0, 0, 1, 0, dt],
    ![0, 0, 0, 0, 0, 0],
    ![0, 0, 0, 0, 0, 0]]

/-- The state-transition matrix assigned by `Contact.init_filters` when the
detection has position and velocity (`contact.py` lines 167-173):
constant-acceleration kinematics, acceleration rows identity. -/
def F_posVel (dt : ℚ) : Fin 6 → Fin 6 → ℚ :=
  ![![1, 0, dt, 0, 1 / 2 * dt ^ 2, 0],
    ![0, 1, 0, dt, 0, 1 / 2 * dt ^ 2],
    ![0, 0, 1, 0, dt, 0],
    ![0, 0, 0, 1, 0, dt],
    ![0, 0, 0, 0, 1, 0],
    ![0, 0, 0, 0, 0, 1]]

/-- A `filterpy.KalmanFilter` as the `Contact` class writes it: a type tag
(`kf.filter_type`, compared against the strings "first" / "second"), state
mean `x` (a 6-vector of floats, possibly NaN), transition matrix `F`,
covariance `P` and process noise `Q`. -/
structure CFilter where
  filter_type : String
  x : Fin 6 → NVal
  F : Fin 6 → Fin 6 → ℚ
  P : Fin 6 → Fin 6 → ℚ
  Q : Fin 6 → Fin 6 → ℚ

/-- The external `filterpy.common.Q_continuous_white_noise` in the two shapes
`Contact.set_Q` calls it (`dim=2` resp. `dim=3`, `block_size=2`,
`order_by_dim=False`), taking the spectral density and `dt`; passed as a
parameter since the library is not part of this repository. -/
structure NoiseModel where
  qcw2 : ℚ → ℚ → Fin 4 → Fin 4 → ℚ
  qcw3 : ℚ → ℚ → Fin 6 → Fin 6 → ℚ

/-- Zero-padding a 4×4 noise block into a 6×6 matrix
(`contact.py` lines 98-106). -/
def zeroPad (m : Fin 4 → Fin 4 → ℚ) : Fin 6 → Fin 6 → ℚ :=
  fun i j =>
    if h : i.1 < 4 ∧ j.1 < 4 then m ⟨i.1, h.1⟩ ⟨j.1, h.2⟩ else 0

/-- The per-filter body of `Contact.set_Q` (`contact.py` lines 85-114):
`filter_type == 'first'` gets the zero-padded dim-2 continuous white-noise
block at spectral density `vel_var`; `'second'` gets the dim-3 block at
`acc_var`; any other tag is untouched. -/
def setQFilter (nm : NoiseModel) (vel_var acc_var dt : ℚ) (kf : CFilter) : CFilter :=
  if kf.filter_type = "first" then { kf with Q := zeroPad (nm.qcw2 vel_var dt) }
  else if kf.filter_type = "second" then { kf with Q := nm.qcw3 acc_var dt }
  else kf

/-- The `x`/`F` assignments of the `Contact.init_filters` loop body
(`contact.py` lines 126-173).  Note both branches test only the detection's
channels, never `filter_type`: position-without-velocity seeds `x` from the
position and assigns the acceleration-frozen `F`; position-with-velocity
seeds position and velocity and assigns the constant-acceleration `F`; a
detection without position (`x_pos` NaN) matches neither branch, leaving `x`
and `F` untouched. -/
def initFilterXF (info : DetectInfo) (dt : ℚ) (kf : CFilter) : CFilter :=
  if info.x_pos.isSome && info.x_vel.isNone then
    { kf with
      x := ![info.x_pos, info.y_pos, some 0, some 0, some 0, some 0]
      F := F_posOnly dt }
  else if info.x_pos.isSome && info.x_vel.isSome then
    { kf with
      x := ![info.x_pos, info.y_pos, info.x_vel, info.y_vel, some 0, some 0]
      F := F_posVel dt }
  else kf

/-- The state covariance assigned to every filter by `Contact.init_filters`
(`contact.py` lines 190-196): position variances scaled by 100 from the
reported covariance (flat indices 0 and 6), velocity variances the constant
`5.0**2`, acceleration variances the constant `1.**2`.  The detection's
velocity covariance (`twist_covar`) is not consulted. -/
def P_init (info : DetectInfo) : Fin 6 → Fin 6 → ℚ :=
  ![![100 * info.pos_covar0, 0, 0, 0, 0, 0],
    ![0, 100 * info.pos_covar6, 0, 0, 0, 0],
    ![0, 0, 5 ^ 2, 0, 0, 0],
    ![0, 0, 0, 5 ^ 2, 0, 0],
    ![0, 0, 0, 0, 1 ^ 2, 0],
    ![0, 0, 0, 0, 0, 1 ^ 2]]

/-- One iteration of the `Contact.init_filters` loop as it affects filter
`i`: the `x`/`F` branch, then the bank-wide `set_Q` (idempotent, called once
per iteration with the same arguments, so its net effect on each filter is a
single application), then the `P` assignment. -/
def initOneFilter (nm : NoiseModel) (info : DetectInfo) (vel_var acc_var dt : ℚ)
    (kf : CFilter) : CFilter :=
  { setQFilter nm vel_var acc_var dt (initFilterXF info dt kf) with P := P_init info }

/-- `Contact.init_filters` (`contact.py` lines 116-196): every filter in the
bank receives the channel-dependent `x`/`F`, its type-dependent `Q`, and the
fixed-shape `P`. -/
def init_filters (nm : NoiseModel) (vel_var acc_var dt : ℚ) (info : DetectInfo)
    (fs : List CFilter) : List CFilter :=
  fs.map (initOneFilter nm info vel_var acc_var dt)

/-- A `Contact` object of `contact.py` after `__init__` (lines 27-78).
`mu` and `M` are the IMM mode probabilities and transition matrix; the
`IMMEstimator(all_filters, mu, M)` obtained at line 78 lives in the external
filterpy library. -/
structure Contact where
  mu : Fin 2 → ℚ
  M : Fin 2 → Fin 2 → ℚ
  all_filters : List CFilter
  vel_var : ℚ
  acc_var : ℚ
  dt : ℚ
  last_measured : ℚ
  last_xpos : ℚ
  last_ypos : ℚ
  last_xvel : ℚ
  last_yvel : ℚ
  info : DetectInfo
  id : ℚ
  Z : Option (List NVal)

/-- `Contact.__init__` (`contact.py` lines 27-78).  `mu = [0.3, 0.7]`; `M` is
assigned twice in the source (lines 38-41) — first the skewed
`[[0.3, 0.7], [0.95, 0.05]]`, immediately overwritten by the uniform
`[[0.5, 0.5], [0.5, 0.5]]`, which is therefore the effective value;
`vel_var = .5`, `acc_var = .1`, `dt = 1.0`, the last-known channel values
start at `.0`, `id` is the `timestamp` argument, `Z` starts as `None`, and
the filters are initialized by `init_filters`. -/
def Contact.init (nm : NoiseModel) (detect_info : DetectInfo)
    (all_filters : List CFilter) (timestamp : ℚ) : Contact :=
  { mu := ![3 / 10, 7 / 10]
    M := ![![1 / 2, 1 / 2], ![1 / 2, 1 / 2]]
    all_filters := init_filters nm (1 / 2) (1 / 10) 1 detect_info all_filters
    vel_var := 1 / 2
    acc_var := 1 / 10
    dt := 1
    last_measured := detect_info.stamp
    last_xpos := 0
    last_ypos := 0
    last_xvel := 0
    last_yvel := 0
    info := detect_info
    id := timestamp
    Z := none }

/-- `Contact.set_Z` (`contact.py` lines 199-222): if the ARGUMENT's `x_vel`
is NaN, `Z` becomes the two STORED position entries `self.info['x_pos']`,
`self.info['y_pos']`; otherwise the four stored entries.  Nothing else of the
argument is read. -/
def Contact.set_Z (c : Contact) (detect_info : DetectInfo) : Contact :=
  if detect_info.x_vel.isNone then
    { c with Z := some [c.info.x_pos, c.info.y_pos] }
  else
    { c with Z := some [c.info.x_pos, c.info.y_pos, c.info.x_vel, c.info.y_vel] }

/-- Modelled from the spec: the per-cycle IMM mode-probability update, spec
§4.3 step 4 together with its zero-likelihood edge case ("if every filter's
likelihood underflows to zero ... fall back to uniform mode probabilities").
The IMM cycle itself is executed by the external `filterpy.IMMEstimator`
built at `contact.py` line 78 and is implemented in no source file of this
repository. -/
def immMuUpdate (M : Fin 2 → Fin 2 → ℚ) (mu : Fin 2 → ℚ) (like : Fin 2 → ℚ) :
    Fin 2 → ℚ :=
  if (∑ j, (∑ i, mu i * M i j) * like j) = 0 then fun _ => 1 / 2
  else fun j => ((∑ i, mu i * M i j) * like j) / (∑ j, (∑ i, mu i * M i j) * like j)

/-- A trivial noise model (all-zero blocks), used to evaluate the filter
initialization on concrete inputs in closed theorems. -/
def nmZero : NoiseModel :=
  { qcw2 := fun _ _ _ _ => 0, qcw3 := fun _ _ _ _ => 0 }

/-- A first-order filter with junk pre-initialization content, to observe
which fields initialization overwrites. -/
def fFirst : CFilter :=
  { filter_type := "first", x := fun _ => some 9, F := fun _ _ => 9,
    P := fun _ _ => 9, Q := fun _ _ => 9 }

/-- The same junk filter tagged second-order. -/
def fSecond : CFilter := { fFirst with filter_type := "second" }

/-- A contact created from the position-only detection `cexInfo` with a bank
of one first-order and one second-order filter. -/
def c5contact : Contact := Contact.init nmZero cexInfo [fFirst, fSecond] 0

/-- A velocity-only detection: position NaN, velocity (3, 4), with reported
velocity variance 99. -/
def c6info : DetectInfo :=
  { stamp := 0, pos_covar0 := 2, pos_covar6 := 3, pos_covar7 := 1
    twist_covar0 := 99, x_pos := none, y_pos := none, z_pos := none
    x_vel := some 3, y_vel := some 4, z_vel := none }

/-- A contact created from the velocity-only detection `c6info`. -/
def c6contact : Contact := Contact.init nmZero c6info [fFirst] 0

/-- A contact whose stored `info` is the velocity-only detection `c6info`
(empty filter bank; `set_Z` does not touch the filters). -/
def c7contact : Contact := Contact.init nmZero c6info [] 0

/-- Claim C1 is false as stated: the association step does not use absolute
differences.  For the detection at the origin and a contact predicted at
(100, 100) with gate width 2, both absolute axis differences are 100, so the
claim's gate rejects the contact and mandates the fresh id 77; but the code's
signed differences are −100 < 2, so `check_all_contacts` returns the existing
contact's id 5. -/
theorem check_all_contacts_not_absolute :
    check_all_contacts [(5, cexContact)] cexDetect 77 = 5 ∧
    specAbsAssociate [(5, cexContact)] cexDetect 77 = 77 ∧
    (5 : ℚ) ≠ 77 := by
  refine ⟨?_, ?_, by norm_num⟩
  · simp [check_all_contacts, passGate, cexContact, cexDetect]
    norm_num
  · simp [specAbsAssociate, specAbsGate, cexContact, cexDetect, List.find?]
    norm_num

/-- Claim C1 (corrected): for every incoming detection and every current set
of contacts, the association step returns the id of the first live contact
(in registry insertion order) whose signed per-axis differences (detection
position minus predicted position, no absolute value taken) are each less
than twice the sum of the detection's reported position variance and the
contact's corresponding `kf.R` diagonal term; a detection with an absent
position coordinate matches no contact (NaN comparisons are false); if no
contact passes, the fresh id is returned. -/
theorem check_all_contacts_correct (reg : Registry) (info : DetectInfo) (fresh : ℚ) :
    check_all_contacts reg info fresh = specSignedAssociate reg info fresh := by
  induction reg with
  | nil => rfl
  | cons hd tl ih =>
      obtain ⟨k, c⟩ := hd
      have hgate : passGate info c = specSignedGate info c := by
        unfold passGate specSignedGate
        cases hx : info.x_pos with
        | none => rfl
        | some x =>
            cases hy : info.y_pos with
            | none => rfl
            | some y => simp [mul_comm]
      by_cases h : specSignedGate info c = true
      · simp [check_all_contacts, specSignedAssociate, List.find?, hgate, h]
      · have h2 : specSignedGate info c = false := by
          simpa using h
        simp [check_all_contacts, specSignedAssociate, List.find?, hgate, h2] at ih ⊢
        exact ih

/-- Claim C3 (confirmed): a detection with exactly one member of the x/y
position pair NaN/absent, or exactly one member of the x/y velocity pair
NaN/absent, is rejected by the detection callback of either tracker node
before it reaches the registry: the callback returns normally (no exception)
and the registry is exactly as it was — no contact created, none updated. -/
theorem mismatched_pair_rejected (p : CbParams) (reg : Registry) (now : ℚ)
    (regT : RegistryT) (info : DetectInfo)
    (h : badPosPair info = true ∨ badVelPair info = true) :
    callbackDebug p reg info = (none, reg) ∧
    callbackTracker p now regT info = (none, regT) := by
  unfold callbackDebug callbackTracker
  rcases h with h | h
  · simp [h]
  · cases hb : badPosPair info <;> simp [hb, h]

/-- Witness for C3: a detection with `x_pos` present and `y_pos` NaN leaves
an empty registry empty in both nodes. -/
theorem mismatched_pair_rejected_witness :
    (badPosPair w3info = true ∨ badVelPair w3info = true) ∧
    callbackDebug idParams [] w3info = (none, []) ∧
    callbackTracker idParams 0 [] w3info = (none, []) :=
  ⟨Or.inl (by simp [badPosPair, w3info]),
   mismatched_pair_rejected idParams [] 0 [] w3info
     (Or.inl (by simp [badPosPair, w3info]))⟩

/-- Claim C9 (confirmed): the contact-creation branch of the detection
callback cannot complete normally in either tracker node.  The `Contact`
constructor is called with 4 (debug node) resp. 5 (tracker node) positional
arguments against the 3 that `Contact.__init__` accepts, and the initializer
methods the nodes then call are not defined by the `Contact` class; hence for
every validated detection whose association yields an id absent from the
registry (and which carries a position or a velocity, so that a construction
branch runs), the callback aborts with `TypeError` and no contact object is
added to the registry. -/
theorem create_branch_unreachable (p : CbParams) (reg : Registry)
    (info : DetectInfo) (now : ℚ) (regT : RegistryT)
    (hpos : badPosPair info = false) (hvel : badVelPair info = false)
    (hch : (info.x_pos.isSome || info.x_vel.isSome) = true)
    (hnew : lookupReg reg (debugContactId reg info) = none)
    (hnewT : lookupRegT regT (trackerContactId info) = none) :
    debugContactCallArgs.length ≠ contactInitParams.length ∧
    trackerContactCallArgs.length ≠ contactInitParams.length ∧
    (∀ m ∈ contactInitMethodsCalled, m ∉ contactMethods) ∧
    callbackDebug p reg info = (some CbErr.typeError, reg) ∧
    callbackTracker p now regT info = (some CbErr.typeError, regT) := by
  refine ⟨by decide, by decide, by decide, ?_, ?_⟩
  · unfold callbackDebug
    simp [hpos, hvel, hnew, hch]
  · unfold callbackTracker
    simp [hpos, hvel, hnewT, hch]

/-- Witness for C9: a position-and-velocity detection against the empty
registries makes both callbacks abort with `TypeError`. -/
theorem create_branch_unreachable_witness :
    callbackDebug idParams [] w9info = (some CbErr.typeError, []) ∧
    callbackTracker idParams 0 [] w9info = (some CbErr.typeError, []) := by
  have h := create_branch_unreachable idParams [] w9info 0 []
    (by simp [badPosPair, w9info]) (by simp [badVelPair, w9info])
    (by simp [w9info]) (by simp [lookupReg]) (by simp [lookupRegT])
  exact ⟨h.2.2.2.1, h.2.2.2.2⟩

/-- Claim C2 (code bug): a contact that no detection has updated for far
longer than any staleness threshold is NOT removed by a later processing
step.  The expiry sweep in both tracker nodes is commented out
(`tracker_debug.py` lines 328-334, `tracker.py` lines 278-281) and no other
expiry operation exists, while the configured `max_stale_contact_time` is
read but never used.  Concretely: with the staleness threshold 10, a
detection arriving 1000 − 0 = 1000 time units after `staleContact`'s last
update is processed to completion (it updates `freshContact`), yet
`staleContact` is still found under its key afterwards. -/
theorem stale_contact_not_removed :
    c2detect.stamp - staleContact.last_measured > 10 ∧
    (callbackDebug idParams c2reg c2detect).1 = none ∧
    (lookupReg (callbackDebug idParams c2reg c2detect).2 0).isSome = true := by
  refine ⟨by norm_num [c2detect, staleContact], ?_, ?_⟩ <;>
    · simp [callbackDebug, badPosPair, badVelPair, debugContactId, check_all_contacts,
        passGate, lookupReg, setReg, debugMeas, idParams, c2reg, c2detect,
        staleContact, freshContact, cexInfo]
      try norm_num

/-- Claim C8 is false as stated for `tracker.py`: two validated detections
1000 units apart are assigned the same identifier — the constant `1` chosen
at lines 206-209 under the shipped `DEBUG = True` — and after both callbacks
run from an empty registry, zero contacts exist (construction aborts, C9),
not two contacts with distinct identifiers. -/
theorem far_detections_same_id :
    c8d1.x_pos ≠ c8d2.x_pos ∧
    trackerContactId c8d1 = trackerContactId c8d2 ∧
    (callbackTracker idParams 0
      (callbackTracker idParams 0 [] c8d1).2 c8d2).2 = [] := by
  refine ⟨?_, rfl, ?_⟩
  · simp [c8d1, c8d2]
    try norm_num
  · simp [callbackTracker, badPosPair, badVelPair, trackerContactId, DEBUG,
      lookupRegT, c8d1, c8d2]

/-- If a detection passes no contact's gate, association returns the fresh
stamp. -/
theorem check_all_contacts_no_match (reg : Registry) (info : DetectInfo) (s : ℚ)
    (h : ∀ e ∈ reg, passGate info e.2 = false) :
    check_all_contacts reg info s = s := by
  induction reg with
  | nil => rfl
  | cons hd tl ih =>
      obtain ⟨k, c⟩ := hd
      have hc : passGate info c = false := h (k, c) (List.mem_cons_self _ _)
      simp [check_all_contacts, hc]
      exact ih fun e he => h e (List.mem_cons_of_mem _ he)

/-- Claim C8 (corrected): in `tracker_debug.py` the identifier selected for a
detection that matches no existing contact is the detection's header
timestamp — assigned at creation time and not derived from the detection's
position — so two validated detections that pass no contact's gate and carry
distinct timestamps are assigned distinct identifiers.  (In `tracker.py` the
identifier is instead the constant `1` under the shipped `DEBUG = True`, or
the raw position pair otherwise, so the claim fails there; and in both nodes
contact construction itself subsequently aborts, see C9.) -/
theorem debug_id_is_stamp (reg : Registry) (d1 d2 : DetectInfo)
    (h1 : ∀ e ∈ reg, passGate d1 e.2 = false)
    (h2 : ∀ e ∈ reg, passGate d2 e.2 = false)
    (hne : d1.stamp ≠ d2.stamp) :
    debugContactId reg d1 = d1.stamp ∧
    debugContactId reg d2 = d2.stamp ∧
    debugContactId reg d1 ≠ debugContactId reg d2 := by
  have e1 : debugContactId reg d1 = d1.stamp := by
    unfold debugContactId
    split
    · rfl
    · exact check_all_contacts_no_match reg d1 d1.stamp h1
  have e2 : debugContactId reg d2 = d2.stamp := by
    unfold debugContactId
    split
    · rfl
    · exact check_all_contacts_no_match reg d2 d2.stamp h2
  exact ⟨e1, e2, by rw [e1, e2]; exact hne⟩

/-- Witness for the corrected C8: the two far-apart detections of the
counterexample, against the stale/fresh registry — both fail every gate and
their stamps 0 and 1 differ, so the debug node assigns them the distinct
identifiers 0 and 1. -/
theorem debug_id_is_stamp_witness :
    debugContactId [(0, staleContact)] c8d1 = 0 ∧
    debugContactId [(0, staleContact)] c8d2 = 1 ∧
    debugContactId [(0, staleContact)] c8d1 ≠ debugContactId [(0, staleContact)] c8d2 := by
  have h := debug_id_is_stamp [(0, staleContact)] c8d1 c8d2
    (by intro e he
        simp at he
        subst he
        simp [passGate, staleContact, c8d1]
        norm_num)
    (by intro e he
        simp at he
        subst he
        simp [passGate, staleContact, c8d2]
        norm_num)
    (by simp [c8d1, c8d2])
  simpa [c8d1, c8d2] using h

/-- `setQFilter` writes only the `Q` field. -/
theorem setQFilter_preserves (nm : NoiseModel) (vel_var acc_var dt : ℚ)
    (kf : CFilter) :
    (setQFilter nm vel_var acc_var dt kf).F = kf.F ∧
    (setQFilter nm vel_var acc_var dt kf).x = kf.x ∧
    (setQFilter nm vel_var acc_var dt kf).filter_type = kf.filter_type := by
  unfold setQFilter
  by_cases h1 : kf.filter_type = "first"
  · simp [h1]
  · by_cases h2 : kf.filter_type = "second" <;> simp [h1, h2]

/-- Claim C4 (confirmed): the mode probability vector is non-negative and
sums to 1 immediately after contact creation (`mu = [0.3, 0.7]` at
`contact.py` line 37), and — modelling the IMM cycle from the spec, since it
runs inside the external filterpy `IMMEstimator` — the mode-probability
update preserves non-negativity and unit sum for any transition matrix,
previous probabilities and (Gaussian-density, hence non-negative)
likelihoods, with the uniform fallback covering the all-zero-likelihood
case. -/
theorem mu_nonneg_sums_to_one (nm : NoiseModel) (d : DetectInfo)
    (fs : List CFilter) (ts : ℚ) (M : Fin 2 → Fin 2 → ℚ) (mu like : Fin 2 → ℚ)
    (hmu : ∀ i, 0 ≤ mu i) (hM : ∀ i j, 0 ≤ M i j) (hlike : ∀ j, 0 ≤ like j) :
    ((Contact.init nm d fs ts).mu = ![3 / 10, 7 / 10] ∧
      ∑ i, (Contact.init nm d fs ts).mu i = 1 ∧
      0 ≤ (Contact.init nm d fs ts).mu 0 ∧ 0 ≤ (Contact.init nm d fs ts).mu 1) ∧
    (∑ j, immMuUpdate M mu like j = 1 ∧
      0 ≤ immMuUpdate M mu like 0 ∧ 0 ≤ immMuUpdate M mu like 1) := by
  have hu : ∀ j, 0 ≤ (∑ i, mu i * M i j) * like j := fun j =>
    mul_nonneg (Finset.sum_nonneg fun i _ => mul_nonneg (hmu i) (hM i j)) (hlike j)
  have hs0 : 0 ≤ ∑ j, (∑ i, mu i * M i j) * like j :=
    Finset.sum_nonneg fun j _ => hu j
  constructor
  · refine ⟨rfl, ?_, by norm_num [Contact.init], by norm_num [Contact.init]⟩
    simp [Contact.init, Fin.sum_univ_two]
    norm_num
  · by_cases hs : (∑ j, (∑ i, mu i * M i j) * like j) = 0
    · have h1 : immMuUpdate M mu like = fun _ => 1 / 2 := by
        unfold immMuUpdate
        rw [if_pos hs]
      rw [h1]
      refine ⟨by norm_num [Fin.sum_univ_two], by norm_num, by norm_num⟩
    · refine ⟨?_, ?_, ?_⟩
      · simp only [immMuUpdate, hs, if_false]
        rw [Fin.sum_univ_two, div_add_div_same, ← Fin.sum_univ_two
          (f := fun j => (∑ i, mu i * M i j) * like j)]
        exact div_self hs
      · simp only [immMuUpdate, hs, if_false]
        exact div_nonneg (hu 0) hs0
      · simp only [immMuUpdate, hs, if_false]
        exact div_nonneg (hu 1) hs0

/-- Witness for C4: concrete inputs — the uniform transition matrix, the
initial probabilities and all-zero likelihoods (exercising the degenerate
fallback). -/
theorem mu_nonneg_sums_to_one_witness :
    ((Contact.init nmZero cexInfo [] 0).mu = ![3 / 10, 7 / 10] ∧
      ∑ i, (Contact.init nmZero cexInfo [] 0).mu i = 1 ∧
      0 ≤ (Contact.init nmZero cexInfo [] 0).mu 0 ∧
      0 ≤ (Contact.init nmZero cexInfo [] 0).mu 1) ∧
    (∑ j, immMuUpdate (![![1 / 2, 1 / 2], ![1 / 2, 1 / 2]]) (![3 / 10, 7 / 10])
        (![0, 0]) j = 1 ∧
      0 ≤ immMuUpdate (![![1 / 2, 1 / 2], ![1 / 2, 1 / 2]]) (![3 / 10, 7 / 10])
        (![0, 0]) 0 ∧
      0 ≤ immMuUpdate (![![1 / 2, 1 / 2], ![1 / 2, 1 / 2]]) (![3 / 10, 7 / 10])
        (![0, 0]) 1) :=
  mu_nonneg_sums_to_one nmZero cexInfo [] 0 _ _ _
    (by intro i; fin_cases i <;> norm_num)
    (by intro i j; fin_cases i <;> fin_cases j <;> norm_num)
    (by intro j; fin_cases j <;> norm_num)

/-- Claim C5 is false as stated: in the contact `c5contact`, created from a
position-only detection, the filter tagged `'second'` receives the
acceleration-frozen matrix `F_posOnly 1` (its acceleration diagonal entry is
0), not the constant-acceleration matrix (diagonal entry 1): `F` is selected
by the detection's channels, identically for every filter in the bank. -/
theorem second_order_filter_F_frozen :
    c5contact.all_filters.map CFilter.filter_type = ["first", "second"] ∧
    c5contact.all_filters.map CFilter.F = [F_posOnly 1, F_posOnly 1] ∧
    F_posOnly 1 4 4 = 0 ∧ F_posVel 1 4 4 = 1 := by
  refine ⟨rfl, rfl, rfl, rfl⟩

/-- Claim C5 (corrected): the shape of the state-transition matrix `F`
assigned by filter initialization is determined by the detection's available
channels, not by the filter's model order: whenever the detection carries a
position, every filter in the bank — whatever its `filter_type` — receives
the acceleration-frozen `F` if velocity is absent and the
constant-acceleration `F` if velocity is present (so the assignment is
independent of the filter it is applied to); a detection without position
leaves `F` untouched. -/
theorem F_from_detection_channels (nm : NoiseModel) (info : DetectInfo)
    (vel_var acc_var dt : ℚ) (kf kf2 : CFilter) :
    (info.x_pos.isSome = true →
      (initOneFilter nm info vel_var acc_var dt kf).F =
        (if info.x_vel.isNone then F_posOnly dt else F_posVel dt) ∧
      (initOneFilter nm info vel_var acc_var dt kf).F =
        (initOneFilter nm info vel_var acc_var dt kf2).F) ∧
    (info.x_pos.isSome = false →
      (initOneFilter nm info vel_var acc_var dt kf).F = kf.F) := by
  have hF : ∀ g : CFilter, (initOneFilter nm info vel_var acc_var dt g).F =
      (initFilterXF info dt g).F := fun g =>
    (setQFilter_preserves nm vel_var acc_var dt (initFilterXF info dt g)).1
  constructor
  · intro hpos
    cases hv : info.x_vel.isNone
    · have hvs : info.x_vel.isSome = true := by
        simpa [Option.isNone_iff_eq_none, Option.isSome_iff_ne_none] using hv
      constructor <;> simp [hF, initFilterXF, hpos, hv, hvs]
    · have hvs : info.x_vel.isSome = false := by
        cases h : info.x_vel <;> simp_all
      constructor <;> simp [hF, initFilterXF, hpos, hv, hvs]
  · intro hpos
    simp [hF, initFilterXF, hpos]

/-- Witness for the corrected C5: the position-only detection `cexInfo`
gives the junk second-order filter `fSecond` the frozen matrix, the same `F`
it gives `fFirst`. -/
theorem F_from_detection_channels_witness :
    (initOneFilter nmZero cexInfo (1 / 2) (1 / 10) 1 fSecond).F =
      (if cexInfo.x_vel.isNone then F_posOnly 1 else F_posVel 1) ∧
    (initOneFilter nmZero cexInfo (1 / 2) (1 / 10) 1 fSecond).F =
      (initOneFilter nmZero cexInfo (1 / 2) (1 / 10) 1 fFirst).F :=
  (F_from_detection_channels nmZero cexInfo (1 / 2) (1 / 10) 1 fSecond fFirst).1 rfl

/-- Claim C6 is false as stated: for the velocity-only first detection
`c6info` (velocity (3, 4) present, reported velocity variance 99), contact
creation seeds nothing of the state mean — the filter keeps its junk
pre-initialization state `fun i => some 9`, the velocity 3 appears nowhere —
and the covariance's velocity diagonal is the constant 25 = 5², not a scaled
version of the reported velocity covariance 99. -/
theorem velocity_only_not_seeded :
    c6contact.all_filters.map CFilter.x = [fFirst.x] ∧
    fFirst.x 2 = some 9 ∧ c6info.x_vel = some 3 ∧ some (9 : ℚ) ≠ some 3 ∧
    c6contact.all_filters.map CFilter.P = [P_init c6info] ∧
    P_init c6info 2 2 = 25 ∧ c6info.twist_covar0 = 99 ∧ (25 : ℚ) ≠ 99 := by
  refine ⟨rfl, rfl, rfl, by norm_num, rfl, by norm_num [P_init], rfl, by norm_num⟩

/-- Claim C6 (corrected): on contact creation every filter receives, for its
state mean: position and zeros when the detection has position but no
velocity, position and velocity and zeros when it has both, and NO seeding at
all when it has velocity only (the state mean and `F` are left untouched);
and for its covariance, always the fixed shape `P_init` — 100 × the reported
position covariance entries (flat indices 0 and 6) on the position diagonal,
the constant 5² on the velocity diagonal and the constant 1² on the
acceleration diagonal — so the detection's reported velocity covariance is
never consulted (changing it leaves initialization unchanged). -/
theorem init_seeds_channels (nm : NoiseModel) (info : DetectInfo)
    (vel_var acc_var dt t : ℚ) (kf : CFilter) :
    ((initOneFilter nm info vel_var acc_var dt kf).P = P_init info) ∧
    (info.x_pos.isSome = true → info.x_vel.isNone = true →
      (initOneFilter nm info vel_var acc_var dt kf).x =
        ![info.x_pos, info.y_pos, some 0, some 0, some 0, some 0]) ∧
    (info.x_pos.isSome = true → info.x_vel.isSome = true →
      (initOneFilter nm info vel_var acc_var dt kf).x =
        ![info.x_pos, info.y_pos, info.x_vel, info.y_vel, some 0, some 0]) ∧
    (info.x_pos.isSome = false →
      (initOneFilter nm info vel_var acc_var dt kf).x = kf.x ∧
      (initOneFilter nm info vel_var acc_var dt kf).F = kf.F) ∧
    (initOneFilter nm { info with twist_covar0 := t } vel_var acc_var dt kf =
      initOneFilter nm info vel_var acc_var dt kf) := by
  have hx : ∀ g : CFilter, (initOneFilter nm info vel_var acc_var dt g).x =
      (initFilterXF info dt g).x := fun g =>
    (setQFilter_preserves nm vel_var acc_var dt (initFilterXF info dt g)).2.1
  have hF : ∀ g : CFilter, (initOneFilter nm info vel_var acc_var dt g).F =
      (initFilterXF info dt g).F := fun g =>
    (setQFilter_preserves nm vel_var acc_var dt (initFilterXF info dt g)).1
  refine ⟨rfl, ?_, ?_, ?_, rfl⟩
  · intro hpos hv
    simp [hx, initFilterXF, hpos, hv]
  · intro hpos hvs
    have hv : info.x_vel.isNone = false := by
      cases h : info.x_vel <;> simp_all
    simp [hx, initFilterXF, hpos, hv, hvs]
  · intro hpos
    exact ⟨by simp [hx, initFilterXF, hpos], by simp [hF, initFilterXF, hpos]⟩

/-- Witness for the corrected C6: the position-and-velocity detection
`w9info` seeds the junk filter's state with (10, 20, 1, 2, 0, 0) and the
fixed-shape covariance. -/
theorem init_seeds_channels_witness :
    (initOneFilter nmZero w9info (1 / 2) (1 / 10) 1 fFirst).P = P_init w9info ∧
    (initOneFilter nmZero w9info (1 / 2) (1 / 10) 1 fFirst).x =
      ![w9info.x_pos, w9info.y_pos, w9info.x_vel, w9info.y_vel, some 0, some 0] :=
  ⟨(init_seeds_channels nmZero w9info (1 / 2) (1 / 10) 1 0 fFirst).1,
   (init_seeds_channels nmZero w9info (1 / 2) (1 / 10) 1 0 fFirst).2.2.1 rfl rfl⟩

/-- Claim C7 is false as stated: with the velocity-only detection `c6info`
(x_vel = 3 present, position NaN), `set_Z` hands the filter update a
4-channel measurement vector — the claim mandates 2 channels when only
velocity is available — and its two position entries are the stored NaNs. -/
theorem velocity_only_Z_four_channels :
    (c7contact.set_Z c6info).Z = some [none, none, some 3, some 4] ∧
    ([none, none, some (3 : ℚ), some 4] : List NVal).length = 4 ∧ 4 ≠ 2 := by
  refine ⟨rfl, rfl, by norm_num⟩

/-- Claim C7 (corrected): the measurement vector `Z` built by
`Contact.set_Z` has exactly 2 channels precisely when the update detection's
`x_vel` is NaN (position-only update) and exactly 4 channels whenever its
`x_vel` is present — including the velocity-only case, where the two position
entries are whatever the stored `info` holds (possibly NaN).  The
`tracker_debug.py` callback, for its part, always hands `kf.update` a
4-entry tuple, substituting last-known values for missing channels. -/
theorem set_Z_channel_count (c : Contact) (d : DetectInfo) (info : DetectInfo)
    (cc : NodeContact) :
    ((c.set_Z d).Z.map List.length) = some (if d.x_vel.isNone then 2 else 4) ∧
    (debugMeas info cc).length = 4 := by
  constructor
  · unfold Contact.set_Z
    by_cases h : d.x_vel.isNone = true <;> simp [h]
  · unfold debugMeas
    split
    · rfl
    · split <;> rfl

/-- Claim C10 (confirmed): from one and the same contact state, `set_Z`
produces identical results for any two argument detections that agree on
whether `x_vel` is NaN — the argument's position and velocity values have no
other influence, since `Z` is built entirely from the stored `self.info`. -/
theorem set_Z_ignores_argument_values (c : Contact) (d1 d2 : DetectInfo)
    (h : d1.x_vel.isNone = d2.x_vel.isNone) :
    c.set_Z d1 = c.set_Z d2 := by
  unfold Contact.set_Z
  rw [h]

/-- Witness for C10: the velocity-only detection `c6info` and the
position-and-velocity detection `w9info` (both with `x_vel` present but
wildly different values) yield the same `Z` from the same contact. -/
theorem set_Z_ignores_argument_values_witness :
    c7contact.set_Z c6info = c7contact.set_Z w9info :=
  set_Z_ignores_argument_values c7contact c6info w9info rfl

end ContactTracker
